import Mathlib

/-!
# Developer Reliability API — verification of the scoring engine and aggregator

Shallow embedding of the core logic of the repository:

* `src/app/scoring.py` — the `ScoringEngine`: `ScoringInput`, the seven
  sub-score functions, the weight table and `compute_score`.  Python floats
  are modelled as real numbers, `math.log1p x` as `Real.log (1 + x)`, and
  Python's `round(x, n)` as `roundTo n x = ⌊x·10^n + 1/2⌋ / 10^n` (Python
  rounds halves to even; all rounded quantities appearing in the theorems
  below are away from exact halves, where the two conventions agree).
* `src/data/init_db.py` — the `MetricsAggregator`: the `developers` CTE that
  reduces one developer's project rows to counts, distinct-value counts and
  sets.  A SQL `NULL` is modelled as `Option.none`; `COUNT(*) FILTER (WHERE
  status_std = 'X')` as a `countP` with an exact, case-sensitive match (SQL
  `NULL = 'X'` is not true, matching `Option.some`-equality on `none` being
  false); `COUNT(DISTINCT col)` as the length of the deduplicated list of
  non-`NULL` values (SQL `COUNT(DISTINCT …)` ignores `NULL`s); and
  `STRING_AGG(DISTINCT col, ', ')` — a comma-joined serialization of a set —
  as the `Finset` of non-`NULL` values.  Columns of the CTE not referenced by
  any verified property (capacity sums, date extrema, the placeholder score
  columns) are omitted.
-/

namespace DevReliability

/-! ## Scoring engine (src/app/scoring.py) -/

/-- Input record for the scoring engine (`ScoringInput` in `scoring.py`).
Python `int` fields become `ℤ`, `float` becomes `ℝ`, `Optional[float]`
becomes `Option ℝ`. -/
structure ScoringInput where
  operational : ℤ
  withdrawn : ℤ
  total_projects : ℤ
  avg_timeline_days : Option ℝ
  num_regions : ℤ
  num_fuel_types : ℤ
  active_projects : ℤ
  years_since_first : ℝ

/-- Benchmark `TIMELINE_EXCELLENT = 365` (1 year = perfect). -/
def TIMELINE_EXCELLENT : ℝ := 365

/-- Benchmark `TIMELINE_POOR = 365 * 6` (6 years = 0 score). -/
def TIMELINE_POOR : ℝ := 365 * 6

/-- Benchmark `VOLUME_CAP = 200`. -/
def VOLUME_CAP : ℝ := 200

/-- Benchmark `REGIONS_MAX = 9`. -/
def REGIONS_MAX : ℝ := 9

/-- Benchmark `FUEL_TYPES_MAX = 8`. -/
def FUEL_TYPES_MAX : ℝ := 8

/-- Benchmark `PIPELINE_CAP = 50`. -/
def PIPELINE_CAP : ℝ := 50

/-- Benchmark `DEPTH_MAX = 20`. -/
def DEPTH_MAX : ℝ := 20

/-- Python's `math.log1p x = log (1 + x)`. -/
noncomputable def log1p (x : ℝ) : ℝ := Real.log (1 + x)

/-- Function `score_completion_rate` from `scoring.py`. -/
noncomputable def score_completion_rate (operational withdrawn : ℤ) : ℝ :=
  let resolved := operational + withdrawn
  if resolved = 0 then 0.0
  else ((operational : ℝ) / (resolved : ℝ)) * 100

/-- Function `score_timeline` from `scoring.py` (the Python guard
`avg_days is None or avg_days <= 0` is the `none` arm plus the first test). -/
noncomputable def score_timeline (avg_days : Option ℝ) : ℝ :=
  match avg_days with
  | none => 50.0
  | some d =>
    if d ≤ 0 then 50.0
    else if d ≤ TIMELINE_EXCELLENT then 100.0
    else if TIMELINE_POOR ≤ d then 0.0
    else 100 * (1 - (d - TIMELINE_EXCELLENT) / (TIMELINE_POOR - TIMELINE_EXCELLENT))

/-- Function `score_volume` from `scoring.py`. -/
noncomputable def score_volume (total : ℤ) : ℝ :=
  if total ≤ 0 then 0.0
  else min 100.0 ((log1p (total : ℝ) / log1p VOLUME_CAP) * 100)

/-- Function `score_breadth` from `scoring.py`. -/
noncomputable def score_breadth (num_regions : ℤ) : ℝ :=
  min 100.0 (((num_regions : ℝ) / REGIONS_MAX) * 100)

/-- Function `score_diversity` from `scoring.py`. -/
noncomputable def score_diversity (num_types : ℤ) : ℝ :=
  min 100.0 (((num_types : ℝ) / FUEL_TYPES_MAX) * 100)

/-- Function `score_pipeline` from `scoring.py`. -/
noncomputable def score_pipeline (active : ℤ) : ℝ :=
  if active ≤ 0 then 0.0
  else min 100.0 ((log1p (active : ℝ) / log1p PIPELINE_CAP) * 100)

/-- Function `score_depth` from `scoring.py`. -/
noncomputable def score_depth (years : ℝ) : ℝ :=
  if years ≤ 0 then 0.0
  else min 100.0 ((years / DEPTH_MAX) * 100)

/-- Weight `WEIGHTS["completion"]`. -/
def WEIGHTS_completion : ℝ := 0.30

/-- Weight `WEIGHTS["timeline"]`. -/
def WEIGHTS_timeline : ℝ := 0.20

/-- Weight `WEIGHTS["volume"]`. -/
def WEIGHTS_volume : ℝ := 0.15

/-- Weight `WEIGHTS["breadth"]`. -/
def WEIGHTS_breadth : ℝ := 0.10

/-- Weight `WEIGHTS["diversity"]`. -/
def WEIGHTS_diversity : ℝ := 0.10

/-- Weight `WEIGHTS["pipeline"]`. -/
def WEIGHTS_pipeline : ℝ := 0.10

/-- Weight `WEIGHTS["depth"]`. -/
def WEIGHTS_depth : ℝ := 0.05

/-- Python's `round(x, n)`, modelled with round-half-up
(`round y = ⌊y + 1/2⌋` in Mathlib); Python uses round-half-to-even, which
agrees with this everywhere except at exact half-multiples of `10^(-n)`. -/
noncomputable def roundTo (n : ℕ) (x : ℝ) : ℝ :=
  ((round (x * 10 ^ n) : ℤ) : ℝ) / 10 ^ n

/-- The dict returned by `compute_score` in `scoring.py`, as a record. -/
structure ScoreResult where
  score : ℝ
  completion_rate : ℝ
  completion_rate_score : ℝ
  avg_timeline_days : Option ℝ
  timeline_score : ℝ
  project_volume : ℤ
  volume_score : ℝ
  regional_breadth : ℤ
  breadth_score : ℝ
  tech_diversity : ℤ
  diversity_score : ℝ
  active_pipeline : ℤ
  pipeline_score : ℝ
  track_record_years : ℝ
  depth_score : ℝ

/-- Function `compute_score` from `scoring.py`.  The Python expression
`round(inp.avg_timeline_days, 1) if inp.avg_timeline_days else None` tests
float truthiness, so both `None` and `0.0` yield `None`; likewise
`round(...) if resolved else 0` tests `resolved != 0`. -/
noncomputable def compute_score (inp : ScoringInput) : Option ScoreResult :=
  let resolved := inp.operational + inp.withdrawn
  if resolved < 5 then none
  else
    let completion := score_completion_rate inp.operational inp.withdrawn
    let timeline := score_timeline inp.avg_timeline_days
    let volume := score_volume inp.total_projects
    let breadth := score_breadth inp.num_regions
    let diversity := score_diversity inp.num_fuel_types
    let pipeline := score_pipeline inp.active_projects
    let depth := score_depth inp.years_since_first
    let composite :=
      WEIGHTS_completion * completion
      + WEIGHTS_timeline * timeline
      + WEIGHTS_volume * volume
      + WEIGHTS_breadth * breadth
      + WEIGHTS_diversity * diversity
      + WEIGHTS_pipeline * pipeline
      + WEIGHTS_depth * depth
    some
      { score := roundTo 1 composite
        completion_rate :=
          if resolved = 0 then 0
          else roundTo 4 ((inp.operational : ℝ) / (resolved : ℝ))
        completion_rate_score := roundTo 1 completion
        avg_timeline_days :=
          match inp.avg_timeline_days with
          | none => none
          | some d => if d = 0 then none else some (roundTo 1 d)
        timeline_score := roundTo 1 timeline
        project_volume := inp.total_projects
        volume_score := roundTo 1 volume
        regional_breadth := inp.num_regions
        breadth_score := roundTo 1 breadth
        tech_diversity := inp.num_fuel_types
        diversity_score := roundTo 1 diversity
        active_pipeline := inp.active_projects
        pipeline_score := roundTo 1 pipeline
        track_record_years := roundTo 1 inp.years_since_first
        depth_score := roundTo 1 depth }

/-! ## Metrics aggregator (src/data/init_db.py, `developers` CTE) -/

/-- One row of the `projects` table, restricted to the columns the
`developers` CTE aggregates over for the verified properties.  Nullable SQL
columns are `Option`s; `developer_canonical` is non-`NULL` and non-empty by
the import filter on the `projects` table. -/
structure ProjectRecord where
  developer_canonical : String
  region : Option String
  type_std : Option String
  status_std : Option String
deriving DecidableEq

/-- SQL `COUNT(*) FILTER (WHERE status_std = s)`: exact, case-sensitive match;
a `NULL` status matches no label. -/
def countStatus (s : String) (l : List ProjectRecord) : ℕ :=
  l.countP (fun r => r.status_std == some s)

/-- The non-`NULL` `region` values of a developer's rows, in row order. -/
def regionValues (l : List ProjectRecord) : List String :=
  l.filterMap (fun r => r.region)

/-- The non-`NULL` `type_std` values of a developer's rows, in row order
(the SQL `FILTER (WHERE type_std IS NOT NULL)`). -/
def fuelValues (l : List ProjectRecord) : List String :=
  l.filterMap (fun r => r.type_std)

/-- Aggregator output for one developer (`developers` CTE of `init_db.py`),
restricted to the columns the verified properties mention.
`regions`/`fuel_types` model the `STRING_AGG(DISTINCT …)` columns as the
sets they serialize. -/
structure DeveloperMetrics where
  total_projects : ℕ
  operational : ℕ
  withdrawn : ℕ
  active : ℕ
  under_construction : ℕ
  suspended : ℕ
  regions : Finset String
  num_regions : ℕ
  fuel_types : Finset String
  num_fuel_types : ℕ

/-- The `developers` CTE reduction of one developer's group of rows. -/
def aggregate (l : List ProjectRecord) : DeveloperMetrics where
  total_projects := l.length
  operational := countStatus "Operational" l
  withdrawn := countStatus "Withdrawn" l
  active := countStatus "Active" l
  under_construction := countStatus "Under Construction" l
  suspended := countStatus "Suspended" l
  regions := (regionValues l).toFinset
  num_regions := (regionValues l).dedup.length
  fuel_types := (fuelValues l).toFinset
  num_fuel_types := (fuelValues l).dedup.length

/-- SQL `GROUP BY developer_canonical` followed by the per-group reduction: the
metrics the aggregator produces for developer `d` from the full table. -/
def metricsFor (records : List ProjectRecord) (d : String) : DeveloperMetrics :=
  aggregate (records.filter (fun r => r.developer_canonical == d))

/-! ## Helper lemmas -/

theorem roundTo_eq_of (n : ℕ) (x y : ℝ) (k : ℤ)
    (h1 : (k : ℝ) ≤ x * 10 ^ n + 1 / 2) (h2 : x * 10 ^ n + 1 / 2 < k + 1)
    (h3 : (k : ℝ) / 10 ^ n = y) : roundTo n x = y := by
  have hf : round (x * 10 ^ n) = k := by
    rw [round_eq]
    exact Int.floor_eq_iff.mpr ⟨h1, h2⟩
  rw [roundTo, hf, h3]

theorem compute_score_of_unqualified (inp : ScoringInput)
    (h : inp.operational + inp.withdrawn < 5) : compute_score inp = none := by
  unfold compute_score
  simp only [if_pos h]

theorem compute_score_of_qualified (inp : ScoringInput)
    (h : ¬(inp.operational + inp.withdrawn < 5)) :
    compute_score inp = some
      { score := roundTo 1
          (WEIGHTS_completion * score_completion_rate inp.operational inp.withdrawn
            + WEIGHTS_timeline * score_timeline inp.avg_timeline_days
            + WEIGHTS_volume * score_volume inp.total_projects
            + WEIGHTS_breadth * score_breadth inp.num_regions
            + WEIGHTS_diversity * score_diversity inp.num_fuel_types
            + WEIGHTS_pipeline * score_pipeline inp.active_projects
            + WEIGHTS_depth * score_depth inp.years_since_first)
        completion_rate :=
          if inp.operational + inp.withdrawn = 0 then 0
          else roundTo 4 ((inp.operational : ℝ) / ((inp.operational + inp.withdrawn : ℤ) : ℝ))
        completion_rate_score :=
          roundTo 1 (score_completion_rate inp.operational inp.withdrawn)
        avg_timeline_days :=
          match inp.avg_timeline_days with
          | none => none
          | some d => if d = 0 then none else some (roundTo 1 d)
        timeline_score := roundTo 1 (score_timeline inp.avg_timeline_days)
        project_volume := inp.total_projects
        volume_score := roundTo 1 (score_volume inp.total_projects)
        regional_breadth := inp.num_regions
        breadth_score := roundTo 1 (score_breadth inp.num_regions)
        tech_diversity := inp.num_fuel_types
        diversity_score := roundTo 1 (score_diversity inp.num_fuel_types)
        active_pipeline := inp.active_projects
        pipeline_score := roundTo 1 (score_pipeline inp.active_projects)
        track_record_years := roundTo 1 inp.years_since_first
        depth_score := roundTo 1 (score_depth inp.years_since_first) } := by
  unfold compute_score
  simp only [if_neg h]

theorem score_completion_rate_mem (op wd : ℤ) (h1 : 0 ≤ op) (h2 : 0 ≤ wd) :
    0 ≤ score_completion_rate op wd ∧ score_completion_rate op wd ≤ 100 := by
  unfold score_completion_rate
  by_cases h : op + wd = 0
  · simp only [if_pos h]
    norm_num
  · simp only [if_neg h]
    have hpos : (0 : ℝ) < ((op + wd : ℤ) : ℝ) := by
      have : 0 < op + wd := lt_of_le_of_ne (by omega) (Ne.symm h)
      exact_mod_cast this
    have hnum : (0 : ℝ) ≤ (op : ℝ) := by exact_mod_cast h1
    have hle : (op : ℝ) ≤ ((op + wd : ℤ) : ℝ) := by
      have : op ≤ op + wd := by omega
      exact_mod_cast this
    constructor
    · have := div_nonneg hnum hpos.le
      linarith
    · have := (div_le_one hpos).mpr hle
      linarith

theorem score_timeline_mem (o : Option ℝ) :
    0 ≤ score_timeline o ∧ score_timeline o ≤ 100 := by
  unfold score_timeline TIMELINE_EXCELLENT TIMELINE_POOR
  match o with
  | none => norm_num
  | some d =>
    dsimp only
    split_ifs with g1 g2 g3
    · norm_num
    · norm_num
    · norm_num
    · push_neg at g1 g2 g3
      have ha : 0 ≤ (d - 365) / (365 * 6 - 365) := by
        apply div_nonneg <;> nlinarith
      have hb : (d - 365) / (365 * 6 - 365) ≤ 1 := by
        rw [div_le_one (by norm_num)]
        nlinarith
      constructor <;> nlinarith

theorem score_volume_mem (t : ℤ) : 0 ≤ score_volume t ∧ score_volume t ≤ 100 := by
  unfold score_volume log1p VOLUME_CAP
  split_ifs with h
  · norm_num
  · push_neg at h
    refine ⟨le_min (by norm_num) ?_, (min_le_left _ _).trans (by norm_num)⟩
    apply mul_nonneg _ (by norm_num)
    apply div_nonneg
    · apply Real.log_nonneg
      have : (1 : ℝ) ≤ (t : ℝ) := by exact_mod_cast h
      linarith
    · apply Real.log_nonneg
      norm_num

theorem score_breadth_mem (n : ℤ) (h : 0 ≤ n) :
    0 ≤ score_breadth n ∧ score_breadth n ≤ 100 := by
  unfold score_breadth REGIONS_MAX
  have : (0 : ℝ) ≤ (n : ℝ) := by exact_mod_cast h
  refine ⟨le_min (by norm_num) (by positivity), (min_le_left _ _).trans (by norm_num)⟩

theorem score_diversity_mem (n : ℤ) (h : 0 ≤ n) :
    0 ≤ score_diversity n ∧ score_diversity n ≤ 100 := by
  unfold score_diversity FUEL_TYPES_MAX
  have : (0 : ℝ) ≤ (n : ℝ) := by exact_mod_cast h
  refine ⟨le_min (by norm_num) (by positivity), (min_le_left _ _).trans (by norm_num)⟩

theorem score_pipeline_mem (a : ℤ) : 0 ≤ score_pipeline a ∧ score_pipeline a ≤ 100 := by
  unfold score_pipeline log1p PIPELINE_CAP
  split_ifs with h
  · norm_num
  · push_neg at h
    refine ⟨le_min (by norm_num) ?_, (min_le_left _ _).trans (by norm_num)⟩
    apply mul_nonneg _ (by norm_num)
    apply div_nonneg
    · apply Real.log_nonneg
      have : (1 : ℝ) ≤ (a : ℝ) := by exact_mod_cast h
      linarith
    · apply Real.log_nonneg
      norm_num

theorem score_depth_mem (y : ℝ) : 0 ≤ score_depth y ∧ score_depth y ≤ 100 := by
  unfold score_depth DEPTH_MAX
  split_ifs with h
  · norm_num
  · push_neg at h
    refine ⟨le_min (by norm_num) (by positivity), (min_le_left _ _).trans (by norm_num)⟩

theorem roundTo_one_mem (x : ℝ) (h0 : 0 ≤ x) (h1 : x ≤ 100) :
    0 ≤ roundTo 1 x ∧ roundTo 1 x ≤ 100 := by
  unfold roundTo
  have hl : (0 : ℤ) ≤ round (x * 10 ^ 1) := by
    rw [round_eq]
    apply Int.le_floor.mpr
    norm_num
    linarith
  have hu : round (x * 10 ^ 1) ≤ 1000 := by
    rw [round_eq]
    have hm : (⌊x * 10 ^ 1 + 1 / 2⌋ : ℤ) ≤ ⌊(1000.5 : ℝ)⌋ :=
      Int.floor_le_floor (by linarith)
    have he : (⌊(1000.5 : ℝ)⌋ : ℤ) = 1000 := by norm_num [Int.floor_eq_iff]
    omega
  constructor
  · apply div_nonneg _ (by norm_num)
    exact_mod_cast hl
  · rw [div_le_iff₀ (by norm_num)]
    have : ((round (x * 10 ^ 1) : ℤ) : ℝ) ≤ 1000 := by exact_mod_cast hu
    linarith

theorem abs_roundTo_one_sub (x : ℝ) : |roundTo 1 x - x| ≤ 1 / 20 := by
  unfold roundTo
  have h := abs_sub_round (x * 10 ^ 1)
  rw [abs_sub_comm] at h
  have he : ((round (x * 10 ^ 1) : ℤ) : ℝ) / 10 ^ 1 - x
      = (((round (x * 10 ^ 1) : ℤ) : ℝ) - x * 10 ^ 1) / 10 ^ 1 := by
    ring
  rw [he, abs_div]
  have h10 : |(10 : ℝ) ^ 1| = 10 := by norm_num
  rw [h10]
  linarith

/-- Bounds: `ln 11 / ln 201` (the volume-score log proportion at `total = 10`) lies
strictly between 0.4515 and 0.4525, by comparing `11^2000` with integer
powers of 201. -/
theorem log_11_201_bounds :
    0.4515 * Real.log 201 < Real.log 11 ∧ Real.log 11 < 0.4525 * Real.log 201 := by
  have hl : ((201 : ℝ)) ^ (903 : ℕ) < 11 ^ (2000 : ℕ) := by
    have h : (201 : ℕ) ^ 903 < 11 ^ 2000 := by norm_num
    exact_mod_cast h
  have hu : ((11 : ℝ)) ^ (2000 : ℕ) < 201 ^ (905 : ℕ) := by
    have h : (11 : ℕ) ^ 2000 < 201 ^ 905 := by norm_num
    exact_mod_cast h
  have h1 : Real.log ((201 : ℝ) ^ (903 : ℕ)) < Real.log ((11 : ℝ) ^ (2000 : ℕ)) :=
    Real.log_lt_log (by positivity) hl
  have h2 : Real.log ((11 : ℝ) ^ (2000 : ℕ)) < Real.log ((201 : ℝ) ^ (905 : ℕ)) :=
    Real.log_lt_log (by positivity) hu
  rw [Real.log_pow, Real.log_pow] at h1
  rw [Real.log_pow, Real.log_pow] at h2
  push_cast at h1 h2
  constructor <;> linarith

/-- Bounds: `ln 6 / ln 51` (the pipeline-score log proportion at `active = 5`) lies
strictly between 0.4555 and 0.4565. -/
theorem log_6_51_bounds :
    0.4555 * Real.log 51 < Real.log 6 ∧ Real.log 6 < 0.4565 * Real.log 51 := by
  have hl : ((51 : ℝ)) ^ (911 : ℕ) < 6 ^ (2000 : ℕ) := by
    have h : (51 : ℕ) ^ 911 < 6 ^ 2000 := by norm_num
    exact_mod_cast h
  have hu : ((6 : ℝ)) ^ (2000 : ℕ) < 51 ^ (913 : ℕ) := by
    have h : (6 : ℕ) ^ 2000 < 51 ^ 913 := by norm_num
    exact_mod_cast h
  have h1 : Real.log ((51 : ℝ) ^ (911 : ℕ)) < Real.log ((6 : ℝ) ^ (2000 : ℕ)) :=
    Real.log_lt_log (by positivity) hl
  have h2 : Real.log ((6 : ℝ) ^ (2000 : ℕ)) < Real.log ((51 : ℝ) ^ (913 : ℕ)) :=
    Real.log_lt_log (by positivity) hu
  rw [Real.log_pow, Real.log_pow] at h1
  rw [Real.log_pow, Real.log_pow] at h2
  push_cast at h1 h2
  constructor <;> linarith

/-- Evaluation of `compute_score` on the concrete qualified input
`(0, 5, 0, 1272.955575, 0, 0, 0, 0.0298)` (all log-scored metrics zero, so
the value is exact rational arithmetic). -/
theorem compute_score_eval_ex1 :
    compute_score ⟨0, 5, 0, some 1272.955575, 0, 0, 0, 0.0298⟩ =
      some ⟨10.1, 0, 0, some 1273, 50.2, 0, 0, 0, 0, 0, 0, 0, 0, 0, 0.1⟩ := by
  unfold compute_score score_completion_rate score_timeline score_volume score_breadth
    score_diversity score_pipeline score_depth
  norm_num [roundTo, round_eq, Int.floor_eq_iff, WEIGHTS_completion, WEIGHTS_timeline,
    WEIGHTS_volume, WEIGHTS_breadth, WEIGHTS_diversity, WEIGHTS_pipeline, WEIGHTS_depth,
    TIMELINE_EXCELLENT, TIMELINE_POOR, REGIONS_MAX, FUEL_TYPES_MAX, DEPTH_MAX]

/-- Evaluation of `compute_score` on the concrete qualified input
`(5, 0, 0, None, 2, 1, 0, 3)`. -/
theorem compute_score_eval_ex2 :
    compute_score ⟨5, 0, 0, none, 2, 1, 0, 3⟩ =
      some ⟨44.2, 1, 100, none, 50, 0, 0, 2, 22.2, 1, 12.5, 0, 0, 3, 15⟩ := by
  unfold compute_score score_completion_rate score_timeline score_volume score_breadth
    score_diversity score_pipeline score_depth
  norm_num [roundTo, round_eq, Int.floor_eq_iff, WEIGHTS_completion, WEIGHTS_timeline,
    WEIGHTS_volume, WEIGHTS_breadth, WEIGHTS_diversity, WEIGHTS_pipeline, WEIGHTS_depth,
    REGIONS_MAX, FUEL_TYPES_MAX, DEPTH_MAX]

/-- Evaluation of `compute_score` on the concrete qualified input
`(5, 0, 0, some 0, 0, 0, 0, 0)`: the timeline average is present but exactly
zero. -/
theorem compute_score_eval_ex3 :
    compute_score ⟨5, 0, 0, some 0, 0, 0, 0, 0⟩ =
      some ⟨40, 1, 100, none, 50, 0, 0, 0, 0, 0, 0, 0, 0, 0, 0⟩ := by
  unfold compute_score score_completion_rate score_timeline score_volume score_breadth
    score_diversity score_pipeline score_depth
  norm_num [roundTo, round_eq, Int.floor_eq_iff, WEIGHTS_completion, WEIGHTS_timeline,
    WEIGHTS_volume, WEIGHTS_breadth, WEIGHTS_diversity, WEIGHTS_pipeline, WEIGHTS_depth,
    REGIONS_MAX, FUEL_TYPES_MAX, DEPTH_MAX]

/-! ## Claim theorems -/

/-- C1: for every `ScoringInput`, if `operational + withdrawn < 5` then
`compute_score` returns the unqualified result `none` — no score, no
sub-scores, no breakdown — regardless of all other fields. -/
theorem below_five_resolved_unqualified (inp : ScoringInput)
    (h : inp.operational + inp.withdrawn < 5) : compute_score inp = none :=
  compute_score_of_unqualified inp h

theorem below_five_resolved_unqualified_witness :
    compute_score ⟨1, 1, 50, some 100, 3, 2, 10, 7⟩ = none :=
  below_five_resolved_unqualified ⟨1, 1, 50, some 100, 3, 2, 10, 7⟩ (by norm_num)

/-- C4: the timeline sub-score is exactly 100 for positive average durations
of at most 365 days, exactly 0 from 2190 days on, linearly interpolated
strictly between, and exactly 50 when the average is `none` or
non-positive. -/
theorem timeline_score_piecewise (d : ℝ) :
    score_timeline none = 50 ∧
    (d ≤ 0 → score_timeline (some d) = 50) ∧
    (0 < d → d ≤ 365 → score_timeline (some d) = 100) ∧
    (2190 ≤ d → score_timeline (some d) = 0) ∧
    (365 < d → d < 2190 → score_timeline (some d) = 100 * (1 - (d - 365) / 1825)) := by
  unfold score_timeline TIMELINE_EXCELLENT TIMELINE_POOR
  refine ⟨by norm_num, ?_, ?_, ?_, ?_⟩
  · intro h1
    dsimp only
    rw [if_pos h1]
    norm_num
  · intro h1 h2
    dsimp only
    rw [if_neg (by linarith), if_pos h2]
    norm_num
  · intro h1
    dsimp only
    rw [if_neg (by linarith), if_neg (by linarith), if_pos (by linarith)]
    norm_num
  · intro h1 h2
    dsimp only
    rw [if_neg (by linarith), if_neg (by linarith), if_neg (by linarith)]
    norm_num

theorem timeline_score_piecewise_witness :
    score_timeline none = 50 ∧ score_timeline (some (-3)) = 50 ∧
    score_timeline (some 100) = 100 ∧ score_timeline (some 3000) = 0 ∧
    score_timeline (some 600) = 100 * (1 - (600 - 365) / 1825) :=
  ⟨(timeline_score_piecewise 0).1,
   (timeline_score_piecewise (-3)).2.1 (by norm_num),
   (timeline_score_piecewise 100).2.2.1 (by norm_num) (by norm_num),
   (timeline_score_piecewise 3000).2.2.2.1 (by norm_num),
   (timeline_score_piecewise 600).2.2.2.2 (by norm_num) (by norm_num)⟩

/-- C7: the completion sub-score is non-decreasing in `operational` with
`withdrawn` fixed, and non-increasing in `withdrawn` with `operational`
fixed, for non-negative counts with `operational + withdrawn > 0`. -/
theorem completion_rate_score_monotone (op op' wd wd' : ℤ)
    (hop : 0 ≤ op) (hwd : 0 ≤ wd) (hpos : 0 < op + wd) :
    (op ≤ op' → score_completion_rate op wd ≤ score_completion_rate op' wd) ∧
    (wd ≤ wd' → score_completion_rate op wd' ≤ score_completion_rate op wd) := by
  unfold score_completion_rate
  constructor
  · intro hle
    dsimp only
    rw [if_neg (by omega), if_neg (by omega)]
    have d1 : (0 : ℝ) < ((op + wd : ℤ) : ℝ) := by exact_mod_cast hpos
    have d2 : (0 : ℝ) < ((op' + wd : ℤ) : ℝ) := by
      have h : 0 < op' + wd := by omega
      exact_mod_cast h
    have key : (op : ℝ) * ((op' + wd : ℤ) : ℝ) ≤ (op' : ℝ) * ((op + wd : ℤ) : ℝ) := by
      have hc : (op : ℝ) ≤ (op' : ℝ) := by exact_mod_cast hle
      have hw : (0 : ℝ) ≤ (wd : ℝ) := by exact_mod_cast hwd
      push_cast
      nlinarith
    exact mul_le_mul_of_nonneg_right ((div_le_div_iff₀ d1 d2).mpr key) (by norm_num)
  · intro hle
    dsimp only
    rw [if_neg (by omega), if_neg (by omega)]
    have d1 : (0 : ℝ) < ((op + wd : ℤ) : ℝ) := by exact_mod_cast hpos
    have d2 : (0 : ℝ) < ((op + wd' : ℤ) : ℝ) := by
      have h : 0 < op + wd' := by omega
      exact_mod_cast h
    have key : (op : ℝ) * ((op + wd : ℤ) : ℝ) ≤ (op : ℝ) * ((op + wd' : ℤ) : ℝ) := by
      have hc : (wd : ℝ) ≤ (wd' : ℝ) := by exact_mod_cast hle
      have ho : (0 : ℝ) ≤ (op : ℝ) := by exact_mod_cast hop
      push_cast
      nlinarith
    exact mul_le_mul_of_nonneg_right ((div_le_div_iff₀ d2 d1).mpr key) (by norm_num)

theorem completion_rate_score_monotone_witness :
    (score_completion_rate 2 1 ≤ score_completion_rate 3 1) ∧
    (score_completion_rate 2 4 ≤ score_completion_rate 2 1) :=
  ⟨(completion_rate_score_monotone 2 3 1 4 (by norm_num) (by norm_num) (by norm_num)).1
     (by norm_num),
   (completion_rate_score_monotone 2 3 1 4 (by norm_num) (by norm_num) (by norm_num)).2
     (by norm_num)⟩

/-- C10: in the breakdown, `avg_timeline_days` is reported as `none` both
when the input average is `none` and when it is exactly 0, while a negative
input is reported rounded but non-`none`; in all three cases the timeline
sub-score is the neutral 50. -/
theorem avg_timeline_days_reporting (inp : ScoringInput) (r : ScoreResult)
    (h : compute_score inp = some r) :
    (inp.avg_timeline_days = none → r.avg_timeline_days = none ∧ r.timeline_score = 50) ∧
    (inp.avg_timeline_days = some 0 → r.avg_timeline_days = none ∧ r.timeline_score = 50) ∧
    (∀ x : ℝ, inp.avg_timeline_days = some x → x < 0 →
      r.avg_timeline_days = some (roundTo 1 x) ∧ r.timeline_score = 50) := by
  by_cases h5 : inp.operational + inp.withdrawn < 5
  · rw [compute_score_of_unqualified inp h5] at h
    exact absurd h (by simp)
  · rw [compute_score_of_qualified inp h5, Option.some.injEq] at h
    subst h
    have hr50 : roundTo 1 (50.0 : ℝ) = 50 :=
      roundTo_eq_of 1 50.0 50 500 (by norm_num) (by norm_num) (by norm_num)
    have hT0 : ∀ x : ℝ, x ≤ 0 → score_timeline (some x) = 50.0 := by
      intro x hx
      unfold score_timeline
      dsimp only
      rw [if_pos hx]
    have hTn : score_timeline none = 50.0 := rfl
    refine ⟨?_, ?_, ?_⟩
    · intro hn
      refine ⟨by simp [hn], ?_⟩
      simp only [hn, hTn]
      exact hr50
    · intro hn
      refine ⟨by simp [hn], ?_⟩
      have h50 : score_timeline (some 0) = 50.0 := hT0 0 le_rfl
      simp only [hn, h50]
      exact hr50
    · intro x hx hneg
      have h50 : score_timeline (some x) = 50.0 := hT0 x (le_of_lt hneg)
      refine ⟨?_, ?_⟩
      · simp only [hx]
        rw [if_neg (show ¬x = 0 by linarith)]
      · simp only [hx, h50]
        exact hr50

theorem avg_timeline_days_reporting_witness :
    (ScoreResult.mk 40 1 100 none 50 0 0 0 0 0 0 0 0 0 0).avg_timeline_days = none ∧
    (ScoreResult.mk 40 1 100 none 50 0 0 0 0 0 0 0 0 0 0).timeline_score = 50 :=
  (avg_timeline_days_reporting ⟨5, 0, 0, some 0, 0, 0, 0, 0⟩
    ⟨40, 1, 100, none, 50, 0, 0, 0, 0, 0, 0, 0, 0, 0, 0⟩ compute_score_eval_ex3).2.1 rfl

/-- C2: for every `ScoringInput` satisfying the `DeveloperMetrics` count
invariant (non-negative `operational`, `withdrawn`, `total_projects`,
`num_regions`, `num_fuel_types`, `active_projects`), if `compute_score`
returns a result then the composite score and all seven sub-scores lie in
[0, 100]. -/
theorem scores_in_range (inp : ScoringInput)
    (h1 : 0 ≤ inp.operational) (h2 : 0 ≤ inp.withdrawn)
    (h3 : 0 ≤ inp.total_projects) (h4 : 0 ≤ inp.num_regions)
    (h5 : 0 ≤ inp.num_fuel_types) (h6 : 0 ≤ inp.active_projects)
    (r : ScoreResult) (hr : compute_score inp = some r) :
    (0 ≤ r.score ∧ r.score ≤ 100) ∧
    (0 ≤ r.completion_rate_score ∧ r.completion_rate_score ≤ 100) ∧
    (0 ≤ r.timeline_score ∧ r.timeline_score ≤ 100) ∧
    (0 ≤ r.volume_score ∧ r.volume_score ≤ 100) ∧
    (0 ≤ r.breadth_score ∧ r.breadth_score ≤ 100) ∧
    (0 ≤ r.diversity_score ∧ r.diversity_score ≤ 100) ∧
    (0 ≤ r.pipeline_score ∧ r.pipeline_score ≤ 100) ∧
    (0 ≤ r.depth_score ∧ r.depth_score ≤ 100) := by
  by_cases hq : inp.operational + inp.withdrawn < 5
  · rw [compute_score_of_unqualified inp hq] at hr
    exact absurd hr (by simp)
  · rw [compute_score_of_qualified inp hq, Option.some.injEq] at hr
    subst hr
    obtain ⟨cA, cB⟩ := score_completion_rate_mem inp.operational inp.withdrawn h1 h2
    obtain ⟨tA, tB⟩ := score_timeline_mem inp.avg_timeline_days
    obtain ⟨vA, vB⟩ := score_volume_mem inp.total_projects
    obtain ⟨bA, bB⟩ := score_breadth_mem inp.num_regions h4
    obtain ⟨dA, dB⟩ := score_diversity_mem inp.num_fuel_types h5
    obtain ⟨pA, pB⟩ := score_pipeline_mem inp.active_projects
    obtain ⟨yA, yB⟩ := score_depth_mem inp.years_since_first
    have hcomp :
        0 ≤ WEIGHTS_completion * score_completion_rate inp.operational inp.withdrawn
            + WEIGHTS_timeline * score_timeline inp.avg_timeline_days
            + WEIGHTS_volume * score_volume inp.total_projects
            + WEIGHTS_breadth * score_breadth inp.num_regions
            + WEIGHTS_diversity * score_diversity inp.num_fuel_types
            + WEIGHTS_pipeline * score_pipeline inp.active_projects
            + WEIGHTS_depth * score_depth inp.years_since_first ∧
        WEIGHTS_completion * score_completion_rate inp.operational inp.withdrawn
            + WEIGHTS_timeline * score_timeline inp.avg_timeline_days
            + WEIGHTS_volume * score_volume inp.total_projects
            + WEIGHTS_breadth * score_breadth inp.num_regions
            + WEIGHTS_diversity * score_diversity inp.num_fuel_types
            + WEIGHTS_pipeline * score_pipeline inp.active_projects
            + WEIGHTS_depth * score_depth inp.years_since_first ≤ 100 := by
      unfold WEIGHTS_completion WEIGHTS_timeline WEIGHTS_volume WEIGHTS_breadth
        WEIGHTS_diversity WEIGHTS_pipeline WEIGHTS_depth
      constructor <;> nlinarith
    exact ⟨roundTo_one_mem _ hcomp.1 hcomp.2,
      roundTo_one_mem _ cA cB, roundTo_one_mem _ tA tB, roundTo_one_mem _ vA vB,
      roundTo_one_mem _ bA bB, roundTo_one_mem _ dA dB, roundTo_one_mem _ pA pB,
      roundTo_one_mem _ yA yB⟩

theorem scores_in_range_witness :
    ((0 : ℝ) ≤ 44.2 ∧ (44.2 : ℝ) ≤ 100) ∧
    ((0 : ℝ) ≤ 100 ∧ (100 : ℝ) ≤ 100) ∧
    ((0 : ℝ) ≤ 50 ∧ (50 : ℝ) ≤ 100) ∧
    ((0 : ℝ) ≤ 0 ∧ (0 : ℝ) ≤ 100) ∧
    ((0 : ℝ) ≤ 22.2 ∧ (22.2 : ℝ) ≤ 100) ∧
    ((0 : ℝ) ≤ 12.5 ∧ (12.5 : ℝ) ≤ 100) ∧
    ((0 : ℝ) ≤ 0 ∧ (0 : ℝ) ≤ 100) ∧
    ((0 : ℝ) ≤ 15 ∧ (15 : ℝ) ≤ 100) :=
  scores_in_range ⟨5, 0, 0, none, 2, 1, 0, 3⟩ (by norm_num) (by norm_num) (by norm_num)
    (by norm_num) (by norm_num) (by norm_num)
    ⟨44.2, 1, 100, none, 50, 0, 0, 2, 22.2, 1, 12.5, 0, 0, 3, 15⟩ compute_score_eval_ex2

/-- C3 (amended): the seven fixed weights sum to exactly 1, and for every
input on which `compute_score` returns a result, the returned composite
equals the weighted sum of the seven returned (rounded) sub-scores within
0.1 — one half-step of rounding on the composite plus the weighted rounding
error of the sub-scores.  The 0.05 tolerance of the original claim fails
(see the counterexample). -/
theorem weighted_sum_consistency :
    (WEIGHTS_completion + WEIGHTS_timeline + WEIGHTS_volume + WEIGHTS_breadth
      + WEIGHTS_diversity + WEIGHTS_pipeline + WEIGHTS_depth = 1) ∧
    ∀ (inp : ScoringInput) (r : ScoreResult), compute_score inp = some r →
      |r.score - (WEIGHTS_completion * r.completion_rate_score
        + WEIGHTS_timeline * r.timeline_score + WEIGHTS_volume * r.volume_score
        + WEIGHTS_breadth * r.breadth_score + WEIGHTS_diversity * r.diversity_score
        + WEIGHTS_pipeline * r.pipeline_score + WEIGHTS_depth * r.depth_score)| ≤ 0.1 := by
  constructor
  · unfold WEIGHTS_completion WEIGHTS_timeline WEIGHTS_volume WEIGHTS_breadth
      WEIGHTS_diversity WEIGHTS_pipeline WEIGHTS_depth
    norm_num
  · intro inp r hr
    by_cases hq : inp.operational + inp.withdrawn < 5
    · rw [compute_score_of_unqualified inp hq] at hr
      exact absurd hr (by simp)
    · rw [compute_score_of_qualified inp hq, Option.some.injEq] at hr
      subst hr
      have e0 := abs_roundTo_one_sub
        (WEIGHTS_completion * score_completion_rate inp.operational inp.withdrawn
          + WEIGHTS_timeline * score_timeline inp.avg_timeline_days
          + WEIGHTS_volume * score_volume inp.total_projects
          + WEIGHTS_breadth * score_breadth inp.num_regions
          + WEIGHTS_diversity * score_diversity inp.num_fuel_types
          + WEIGHTS_pipeline * score_pipeline inp.active_projects
          + WEIGHTS_depth * score_depth inp.years_since_first)
      have e1 := abs_roundTo_one_sub (score_completion_rate inp.operational inp.withdrawn)
      have e2 := abs_roundTo_one_sub (score_timeline inp.avg_timeline_days)
      have e3 := abs_roundTo_one_sub (score_volume inp.total_projects)
      have e4 := abs_roundTo_one_sub (score_breadth inp.num_regions)
      have e5 := abs_roundTo_one_sub (score_diversity inp.num_fuel_types)
      have e6 := abs_roundTo_one_sub (score_pipeline inp.active_projects)
      have e7 := abs_roundTo_one_sub (score_depth inp.years_since_first)
      rw [abs_le] at e0 e1 e2 e3 e4 e5 e6 e7
      rw [abs_le]
      unfold WEIGHTS_completion WEIGHTS_timeline WEIGHTS_volume WEIGHTS_breadth
        WEIGHTS_diversity WEIGHTS_pipeline WEIGHTS_depth at *
      constructor <;> [linarith; linarith]

theorem weighted_sum_consistency_witness :
    |(10.1 : ℝ) - (WEIGHTS_completion * 0 + WEIGHTS_timeline * 50.2
      + WEIGHTS_volume * 0 + WEIGHTS_breadth * 0 + WEIGHTS_diversity * 0
      + WEIGHTS_pipeline * 0 + WEIGHTS_depth * 0.1)| ≤ 0.1 :=
  weighted_sum_consistency.2 ⟨0, 5, 0, some 1272.955575, 0, 0, 0, 0.0298⟩
    ⟨10.1, 0, 0, some 1273, 50.2, 0, 0, 0, 0, 0, 0, 0, 0, 0, 0.1⟩ compute_score_eval_ex1

/-- C3 counterexample: on a qualified input whose timeline sub-score is
50.249 and depth sub-score is 0.149, the returned score is 10.1 while the
weighted sum of the returned sub-scores is 10.045 — a gap of 0.055, which
exceeds the claimed 0.05 tolerance. -/
theorem weighted_sum_tolerance_cex :
    compute_score ⟨0, 5, 0, some 1272.955575, 0, 0, 0, 0.0298⟩ =
      some ⟨10.1, 0, 0, some 1273, 50.2, 0, 0, 0, 0, 0, 0, 0, 0, 0, 0.1⟩ ∧
    ¬(|(10.1 : ℝ) - (WEIGHTS_completion * 0 + WEIGHTS_timeline * 50.2
        + WEIGHTS_volume * 0 + WEIGHTS_breadth * 0 + WEIGHTS_diversity * 0
        + WEIGHTS_pipeline * 0 + WEIGHTS_depth * 0.1)| ≤ 0.05) := by
  refine ⟨compute_score_eval_ex1, ?_⟩
  unfold WEIGHTS_completion WEIGHTS_timeline WEIGHTS_volume WEIGHTS_breadth
    WEIGHTS_diversity WEIGHTS_pipeline WEIGHTS_depth
  rw [abs_le]
  norm_num

/-- C8: the volume and pipeline sub-scores are non-decreasing in
`total_projects` and `active_projects`, equal 100 from the benchmark caps
(200 and 50) on and never exceed 100; the breadth sub-score is exactly 100
at `num_regions = 9` and stays 100 for every larger count. -/
theorem volume_pipeline_breadth_caps :
    (∀ t t' : ℤ, t ≤ t' → score_volume t ≤ score_volume t') ∧
    (∀ a a' : ℤ, a ≤ a' → score_pipeline a ≤ score_pipeline a') ∧
    (∀ t : ℤ, 200 ≤ t → score_volume t = 100) ∧
    (∀ a : ℤ, 50 ≤ a → score_pipeline a = 100) ∧
    (∀ t : ℤ, score_volume t ≤ 100) ∧
    (∀ a : ℤ, score_pipeline a ≤ 100) ∧
    score_breadth 9 = 100 ∧
    (∀ n : ℤ, 9 ≤ n → score_breadth n = 100) := by
  have hL201 : (0 : ℝ) < Real.log (1 + 200) := by
    rw [show (1 : ℝ) + 200 = 201 by norm_num]
    exact Real.log_pos (by norm_num)
  have hL51 : (0 : ℝ) < Real.log (1 + 50) := by
    rw [show (1 : ℝ) + 50 = 51 by norm_num]
    exact Real.log_pos (by norm_num)
  refine ⟨?_, ?_, ?_, ?_, fun t => (score_volume_mem t).2,
    fun a => (score_pipeline_mem a).2, ?_, ?_⟩
  · intro t t' h
    by_cases ht : t ≤ 0
    · have h0 : score_volume t = 0 := by
        unfold score_volume
        rw [if_pos ht]
        norm_num
      rw [h0]
      exact (score_volume_mem t').1
    · have ht' : ¬t' ≤ 0 := by omega
      unfold score_volume log1p VOLUME_CAP
      rw [if_neg ht, if_neg ht']
      apply min_le_min le_rfl
      apply mul_le_mul_of_nonneg_right _ (by norm_num)
      rw [div_le_div_right hL201]
      apply Real.log_le_log
      · push_neg at ht
        have hc : (0 : ℝ) < (t : ℝ) := by exact_mod_cast ht
        linarith
      · have hc : (t : ℝ) ≤ (t' : ℝ) := by exact_mod_cast h
        linarith
  · intro a a' h
    by_cases ha : a ≤ 0
    · have h0 : score_pipeline a = 0 := by
        unfold score_pipeline
        rw [if_pos ha]
        norm_num
      rw [h0]
      exact (score_pipeline_mem a').1
    · have ha' : ¬a' ≤ 0 := by omega
      unfold score_pipeline log1p PIPELINE_CAP
      rw [if_neg ha, if_neg ha']
      apply min_le_min le_rfl
      apply mul_le_mul_of_nonneg_right _ (by norm_num)
      rw [div_le_div_right hL51]
      apply Real.log_le_log
      · push_neg at ha
        have hc : (0 : ℝ) < (a : ℝ) := by exact_mod_cast ha
        linarith
      · have hc : (a : ℝ) ≤ (a' : ℝ) := by exact_mod_cast h
        linarith
  · intro t ht
    unfold score_volume log1p VOLUME_CAP
    rw [if_neg (by omega)]
    have hlog : Real.log (1 + 200) ≤ Real.log (1 + (t : ℝ)) := by
      apply Real.log_le_log (by norm_num)
      have hc : (200 : ℝ) ≤ (t : ℝ) := by exact_mod_cast ht
      linarith
    have hge : (100.0 : ℝ) ≤ Real.log (1 + (t : ℝ)) / Real.log (1 + 200) * 100 := by
      have h1 : (1 : ℝ) ≤ Real.log (1 + (t : ℝ)) / Real.log (1 + 200) :=
        (one_le_div hL201).mpr hlog
      linarith
    rw [min_eq_left hge]
    norm_num
  · intro a ha
    unfold score_pipeline log1p PIPELINE_CAP
    rw [if_neg (by omega)]
    have hlog : Real.log (1 + 50) ≤ Real.log (1 + (a : ℝ)) := by
      apply Real.log_le_log (by norm_num)
      have hc : (50 : ℝ) ≤ (a : ℝ) := by exact_mod_cast ha
      linarith
    have hge : (100.0 : ℝ) ≤ Real.log (1 + (a : ℝ)) / Real.log (1 + 50) * 100 := by
      have h1 : (1 : ℝ) ≤ Real.log (1 + (a : ℝ)) / Real.log (1 + 50) :=
        (one_le_div hL51).mpr hlog
      linarith
    rw [min_eq_left hge]
    norm_num
  · unfold score_breadth REGIONS_MAX
    norm_num
  · intro n hn
    unfold score_breadth REGIONS_MAX
    have hge : (100.0 : ℝ) ≤ (n : ℝ) / 9 * 100 := by
      have hc : (9 : ℝ) ≤ (n : ℝ) := by exact_mod_cast hn
      linarith
    rw [min_eq_left hge]
    norm_num

theorem volume_pipeline_breadth_caps_witness :
    (score_volume 3 ≤ score_volume 7) ∧ (score_pipeline 2 ≤ score_pipeline 9) ∧
    score_volume 250 = 100 ∧ score_pipeline 60 = 100 ∧
    score_volume 10 ≤ 100 ∧ score_pipeline 5 ≤ 100 ∧
    score_breadth 9 = 100 ∧ score_breadth 18 = 100 :=
  ⟨volume_pipeline_breadth_caps.1 3 7 (by norm_num),
   volume_pipeline_breadth_caps.2.1 2 9 (by norm_num),
   volume_pipeline_breadth_caps.2.2.1 250 (by norm_num),
   volume_pipeline_breadth_caps.2.2.2.1 60 (by norm_num),
   volume_pipeline_breadth_caps.2.2.2.2.1 10,
   volume_pipeline_breadth_caps.2.2.2.2.2.1 5,
   volume_pipeline_breadth_caps.2.2.2.2.2.2.1,
   volume_pipeline_breadth_caps.2.2.2.2.2.2.2 18 (by norm_num)⟩

set_option maxHeartbeats 1600000 in
/-- C5: Scenario A — on input `(8, 2, 10, 600, 3, 2, 5, 10)` the engine
returns completion_rate 0.8, sub-scores 80.0 / 87.1 / 45.2 / 33.3 / 25.0 /
45.6 / 50.0 and composite score 61.1. -/
theorem scenario_A :
    compute_score ⟨8, 2, 10, some 600, 3, 2, 5, 10⟩ =
      some ⟨61.1, 0.8, 80, some 600, 87.1, 10, 45.2, 3, 33.3, 2, 25, 5, 45.6, 10, 50⟩ := by
  obtain ⟨hv1, hv2⟩ := log_11_201_bounds
  obtain ⟨hp1, hp2⟩ := log_6_51_bounds
  have hL1 : (0 : ℝ) < Real.log 201 := Real.log_pos (by norm_num)
  have hL2 : (0 : ℝ) < Real.log 51 := Real.log_pos (by norm_num)
  have hr1 : (0.4515 : ℝ) < Real.log 11 / Real.log 201 := (lt_div_iff₀ hL1).mpr (by linarith)
  have hr2 : Real.log 11 / Real.log 201 < 0.4525 := (div_lt_iff₀ hL1).mpr (by linarith)
  have hs1 : (0.4555 : ℝ) < Real.log 6 / Real.log 51 := (lt_div_iff₀ hL2).mpr (by linarith)
  have hs2 : Real.log 6 / Real.log 51 < 0.4565 := (div_lt_iff₀ hL2).mpr (by linarith)
  have eC : score_completion_rate 8 2 = 80 := by
    unfold score_completion_rate
    norm_num
  have eT : score_timeline (some 600) = 6360 / 73 := by
    unfold score_timeline TIMELINE_EXCELLENT TIMELINE_POOR
    norm_num
  have eV : score_volume 10 = Real.log 11 / Real.log 201 * 100 := by
    unfold score_volume log1p VOLUME_CAP
    rw [if_neg (by norm_num)]
    rw [show (1 : ℝ) + ((10 : ℤ) : ℝ) = 11 by push_cast; norm_num]
    rw [show (1 : ℝ) + (200 : ℝ) = 201 by norm_num]
    apply min_eq_right
    nlinarith [hr2, hL1]
  have eB : score_breadth 3 = 100 / 3 := by
    unfold score_breadth REGIONS_MAX
    rw [show (((3 : ℤ) : ℝ) / 9 * 100) = 100 / 3 by push_cast; norm_num]
    exact min_eq_right (by norm_num)
  have eD : score_diversity 2 = 25 := by
    unfold score_diversity FUEL_TYPES_MAX
    rw [show (((2 : ℤ) : ℝ) / 8 * 100) = 25 by push_cast; norm_num]
    exact min_eq_right (by norm_num)
  have eP : score_pipeline 5 = Real.log 6 / Real.log 51 * 100 := by
    unfold score_pipeline log1p PIPELINE_CAP
    rw [if_neg (by norm_num)]
    rw [show (1 : ℝ) + ((5 : ℤ) : ℝ) = 6 by push_cast; norm_num]
    rw [show (1 : ℝ) + (50 : ℝ) = 51 by norm_num]
    apply min_eq_right
    nlinarith [hs2, hL2]
  have eY : score_depth 10 = 50 := by
    unfold score_depth DEPTH_MAX
    rw [if_neg (by norm_num)]
    rw [show ((10 : ℝ) / 20 * 100) = 50 by norm_num]
    exact min_eq_right (by norm_num)
  have rC : roundTo 1 (80 : ℝ) = 80 :=
    roundTo_eq_of 1 80 80 800 (by norm_num) (by norm_num) (by norm_num)
  have rT : roundTo 1 ((6360 : ℝ) / 73) = 87.1 :=
    roundTo_eq_of 1 (6360 / 73) 87.1 871 (by norm_num) (by norm_num) (by norm_num)
  have rV : roundTo 1 (Real.log 11 / Real.log 201 * 100) = 45.2 := by
    apply roundTo_eq_of 1 _ _ 452
    · nlinarith [hr1]
    · nlinarith [hr2]
    · norm_num
  have rB : roundTo 1 ((100 : ℝ) / 3) = 33.3 :=
    roundTo_eq_of 1 (100 / 3) 33.3 333 (by norm_num) (by norm_num) (by norm_num)
  have rD : roundTo 1 (25 : ℝ) = 25 :=
    roundTo_eq_of 1 25 25 250 (by norm_num) (by norm_num) (by norm_num)
  have rP : roundTo 1 (Real.log 6 / Real.log 51 * 100) = 45.6 := by
    apply roundTo_eq_of 1 _ _ 456
    · nlinarith [hs1]
    · nlinarith [hs2]
    · norm_num
  have rY : roundTo 1 (50 : ℝ) = 50 :=
    roundTo_eq_of 1 50 50 500 (by norm_num) (by norm_num) (by norm_num)
  have rYears : roundTo 1 (10 : ℝ) = 10 :=
    roundTo_eq_of 1 10 10 100 (by norm_num) (by norm_num) (by norm_num)
  have r600 : roundTo 1 (600 : ℝ) = 600 :=
    roundTo_eq_of 1 600 600 6000 (by norm_num) (by norm_num) (by norm_num)
  have rCR : roundTo 4 ((4 : ℝ) / 5) = 0.8 :=
    roundTo_eq_of 4 (4 / 5) 0.8 8000 (by norm_num) (by norm_num) (by norm_num)
  have rScore : roundTo 1
      (WEIGHTS_completion * 80 + WEIGHTS_timeline * (6360 / 73)
        + WEIGHTS_volume * (Real.log 11 / Real.log 201 * 100)
        + WEIGHTS_breadth * (100 / 3) + WEIGHTS_diversity * 25
        + WEIGHTS_pipeline * (Real.log 6 / Real.log 51 * 100)
        + WEIGHTS_depth * 50) = 61.1 := by
    unfold WEIGHTS_completion WEIGHTS_timeline WEIGHTS_volume WEIGHTS_breadth
      WEIGHTS_diversity WEIGHTS_pipeline WEIGHTS_depth
    apply roundTo_eq_of 1 _ _ 611
    · nlinarith [hr1, hs1]
    · nlinarith [hr2, hs2]
    · norm_num
  rw [compute_score_of_qualified _ (by norm_num)]
  dsimp only
  rw [eC, eT, eV, eB, eD, eP, eY]
  rw [rC, rT, rV, rB, rD, rP, rY, rYears, rScore]
  rw [if_neg (show ¬((8 : ℤ) + 2 = 0) by norm_num)]
  rw [if_neg (show ¬((600 : ℝ) = 0) by norm_num), r600]
  rw [show ((8 : ℤ) : ℝ) / (((8 : ℤ) + 2 : ℤ) : ℝ) = 4 / 5 by push_cast; norm_num, rCR]

/-- At most one of the five status-label indicator variables of a row is 1:
the five labels are pairwise distinct strings compared exactly. -/
theorem indicator_sum_le (o : Option String) :
    (if o == some "Operational" then 1 else 0)
    + (if o == some "Withdrawn" then 1 else 0)
    + (if o == some "Active" then 1 else 0)
    + (if o == some "Under Construction" then 1 else 0)
    + (if o == some "Suspended" then 1 else 0) ≤ 1 := by
  rcases o with _ | s
  · simp
  · simp only [Option.some.injEq, beq_iff_eq]
    by_cases h1 : s = "Operational" <;> by_cases h2 : s = "Withdrawn"
      <;> by_cases h3 : s = "Active" <;> by_cases h4 : s = "Under Construction"
      <;> by_cases h5 : s = "Suspended" <;> simp_all

/-- The five status counts together never exceed the row count: each row
matches at most one status label. -/
theorem countStatus_sum_le (l : List ProjectRecord) :
    countStatus "Operational" l + countStatus "Withdrawn" l + countStatus "Active" l
    + countStatus "Under Construction" l + countStatus "Suspended" l ≤ l.length := by
  induction l with
  | nil => simp [countStatus]
  | cons r t ih =>
    simp only [countStatus, List.countP_cons, List.length_cons] at *
    have h := indicator_sum_le r.status_std
    omega

/-- C9: every `DeveloperMetrics` the aggregator produces, from any set of
project records and for any developer, has non-negative counts, status
counts summing to at most `total_projects` (rows with a status outside the
five labels count toward the total only, none twice), and distinct-count
columns equal to the cardinality of the corresponding sets. -/
theorem aggregator_invariants (records : List ProjectRecord) (d : String) :
    0 ≤ (metricsFor records d).total_projects ∧
    0 ≤ (metricsFor records d).operational ∧
    0 ≤ (metricsFor records d).withdrawn ∧
    0 ≤ (metricsFor records d).active ∧
    0 ≤ (metricsFor records d).under_construction ∧
    0 ≤ (metricsFor records d).suspended ∧
    0 ≤ (metricsFor records d).num_regions ∧
    0 ≤ (metricsFor records d).num_fuel_types ∧
    (metricsFor records d).operational + (metricsFor records d).withdrawn
      + (metricsFor records d).active + (metricsFor records d).under_construction
      + (metricsFor records d).suspended ≤ (metricsFor records d).total_projects ∧
    (metricsFor records d).num_regions = (metricsFor records d).regions.card ∧
    (metricsFor records d).num_fuel_types = (metricsFor records d).fuel_types.card := by
  refine ⟨Nat.zero_le _, Nat.zero_le _, Nat.zero_le _, Nat.zero_le _, Nat.zero_le _,
    Nat.zero_le _, Nat.zero_le _, Nat.zero_le _, ?_, ?_, ?_⟩
  · exact countStatus_sum_le _
  · exact (List.card_toFinset _).symm
  · exact (List.card_toFinset _).symm

/-- C6 (amended): a record whose fuel-type value is absent (SQL `NULL`)
contributes neither to the fuel-type set nor to `num_fuel_types`, while the
record itself still counts toward the total and status counts.  An
empty-string fuel type, by contrast, is an ordinary value: the SQL filter
only excludes `NULL`, so an empty string is counted as a distinct type (see
the counterexample). -/
theorem fuel_null_no_effect (l : List ProjectRecord) (r : ProjectRecord)
    (h : r.type_std = none) :
    (aggregate (r :: l)).num_fuel_types = (aggregate l).num_fuel_types ∧
    (aggregate (r :: l)).fuel_types = (aggregate l).fuel_types ∧
    (aggregate (r :: l)).total_projects = (aggregate l).total_projects + 1 ∧
    ∀ s, countStatus s (r :: l)
      = countStatus s l + (if r.status_std = some s then 1 else 0) := by
  have hf : fuelValues (r :: l) = fuelValues l := by
    unfold fuelValues
    rw [List.filterMap_cons]
    simp [h]
  refine ⟨?_, ?_, rfl, ?_⟩
  · show (fuelValues (r :: l)).dedup.length = (fuelValues l).dedup.length
    rw [hf]
  · show (fuelValues (r :: l)).toFinset = (fuelValues l).toFinset
    rw [hf]
  · intro s
    unfold countStatus
    rw [List.countP_cons]
    congr 1
    simp [beq_iff_eq]

theorem fuel_null_no_effect_witness :
    (aggregate [⟨"d", none, none, some "Operational"⟩,
        ⟨"d", some "PJM", some "Solar", some "Active"⟩]).num_fuel_types
      = (aggregate [⟨"d", some "PJM", some "Solar", some "Active"⟩]).num_fuel_types ∧
    (aggregate [⟨"d", none, none, some "Operational"⟩,
        ⟨"d", some "PJM", some "Solar", some "Active"⟩]).fuel_types
      = (aggregate [⟨"d", some "PJM", some "Solar", some "Active"⟩]).fuel_types ∧
    (aggregate [⟨"d", none, none, some "Operational"⟩,
        ⟨"d", some "PJM", some "Solar", some "Active"⟩]).total_projects
      = (aggregate [⟨"d", some "PJM", some "Solar", some "Active"⟩]).total_projects + 1 ∧
    countStatus "Operational" [⟨"d", none, none, some "Operational"⟩,
        ⟨"d", some "PJM", some "Solar", some "Active"⟩]
      = countStatus "Operational" [⟨"d", some "PJM", some "Solar", some "Active"⟩] + 1 := by
  have h := fuel_null_no_effect [⟨"d", some "PJM", some "Solar", some "Active"⟩]
    ⟨"d", none, none, some "Operational"⟩ rfl
  exact ⟨h.1, h.2.1, h.2.2.1, by simpa using h.2.2.2 "Operational"⟩

/-- C6 counterexample: a record whose fuel-type value is the empty string
(present, not `NULL`) raises `num_fuel_types` from 0 to 1 and puts the empty
string into the fuel-type set, while also counting toward the total and the
Operational count — so an absent/empty fuel type does not always leave
`num_fuel_types` unchanged. -/
theorem fuel_empty_changes_count :
    (aggregate [⟨"d", none, some "", some "Operational"⟩]).num_fuel_types = 1 ∧
    (aggregate ([] : List ProjectRecord)).num_fuel_types = 0 ∧
    (aggregate [⟨"d", none, some "", some "Operational"⟩]).fuel_types = {""} ∧
    (aggregate [⟨"d", none, some "", some "Operational"⟩]).total_projects = 1 ∧
    countStatus "Operational" [⟨"d", none, some "", some "Operational"⟩] = 1 :=
  ⟨by decide, by decide, by decide, by decide, by decide⟩

end DevReliability
